import Mathlib

/-!
Verification of the luau-cjson test harness (`src/tests/luau_test.cpp`)
against its natural-language specification.

The harness is shallowly embedded: Lua strings are byte lists, the VM
stack is a `List LuaValue` with the TOP OF THE STACK AT THE HEAD of the
list, and the behaviour of the external Luau VM (compiler, loader,
protected call, `debug.traceback`) is abstracted into an `Oracle`
parameter recording the outcomes the C API reports back to the harness.
Observable host-side behaviour (stderr lines, the event order of the C
calls, the final stack, whether `lua_close` ran, the return code) is
collected in explicit result records so that the spec's claims about
ordering, diagnostics and stack hygiene become provable statements.
-/

namespace LuauCjson

/-- Lua strings are raw byte sequences (they may contain embedded zero
bytes), modelled as lists of naturals. -/
abbrev Bytes := List Nat

/-- Bytes of an ASCII literal appearing in the C++ source. -/
def strBytes (s : String) : Bytes := s.data.map Char.toNat

/-- Lua values as far as the harness observes them.  Luau numbers are
doubles; no claim depends on non-integral arithmetic, so the payload is
modelled as an integer.  `chunk` is the function value produced by
`luau_load`; `fn`/`table` stand for opaque function and table values. -/
inductive LuaValue where
  | nil
  | boolean (b : Bool)
  | number (n : Int)
  | str (s : Bytes)
  | table (id : Nat)
  | fn (id : Nat)
  | chunk
  deriving DecidableEq, Repr

/-- `lua_tostring` (i.e. `lua_tolstring`) as the Luau C API defines it:
it yields the string itself for string values, coerces a number to its
decimal string form (converting the stack slot in place), and returns
`NULL` for every other type. -/
def lua_tostringVal : LuaValue → Option Bytes
  | .str s => some s
  | .number n => some (strBytes (toString n))
  | _ => none

/-- Length in bytes of a Lua string value (`lua_objlen` on a string). -/
def luaStrLength : LuaValue → Option Nat
  | .str s => some s.length
  | _ => none

/-- `lua_remove(L, -2)`: drop the value directly below the top. -/
def luaRemoveNeg2 : List LuaValue → List LuaValue
  | a :: _ :: t => a :: t
  | s => s

/-- `lua_insert(L, -2)`: move the top value one slot down, which swaps
the two topmost values. -/
def luaInsertNeg2 : List LuaValue → List LuaValue
  | a :: b :: t => b :: a :: t
  | s => s

/-- `lua_remove(L, i)` for a positive absolute index `i` (1-based from
the bottom of the stack); the stack is stored top-at-head. -/
def removeAbs (s : List LuaValue) (i : Nat) : List LuaValue :=
  s.take (s.length - i) ++ s.drop (s.length - i + 1)

/-- Read the value at positive absolute index `i` (1-based from the
bottom), stack stored top-at-head. -/
def stackGetAbs (s : List LuaValue) (i : Nat) : Option LuaValue :=
  s.get? (s.length - i)

/-- Observable events of one `exec_luau_source` run, in program order.
`pcall errfunc nresults` records the error-handler index and the result
count (`-1` is `LUA_MULTRET`) passed to `lua_pcall`. -/
inductive Event where
  | compile
  | load
  | freeBytecode
  | inspectLoadResult (ok : Bool)
  | writeStderr (line : Bytes)
  | popError
  | closeSession
  | fetchTraceback
  | pcall (errfunc : Nat) (nresults : Int)
  | removeErrfunc (errfunc : Nat)
  deriving DecidableEq, Repr

/-- Outcomes the external Luau VM reports to the harness during one
`exec_luau_source` run: whether `luau_load` succeeded (the C function
returns an `int`, `0` on success), the error string it leaves on the
stack otherwise, the values of `debug` and `debug.traceback` fetched
from the globals, whether `lua_pcall` returned `0`, the (traceback
processed) error string it leaves on failure, and the values returned
by the chunk on success (listed top-of-stack first). -/
structure Oracle where
  loadOk : Bool
  loadErr : Bytes
  debugTable : LuaValue
  traceback : LuaValue
  pcallOk : Bool
  pcallErr : Bytes
  results : List LuaValue
  deriving DecidableEq, Repr

/-- What one `exec_luau_source` run leaves behind: the event trace, the
stderr lines written, the VM stack at return (top-at-head; contents at
the moment of `lua_close` when the session was closed), whether
`lua_close` ran, and the C return value. -/
structure ExecResult where
  trace : List Event
  stderr : List Bytes
  stack : List LuaValue
  closed : Bool
  ret : Nat
  deriving DecidableEq, Repr

/-- Lines 54-64 of `luau_test.cpp`: with the freshly loaded chunk on
top of the stack, push `debug`, push `debug.traceback`, remove the
`debug` table, then move the traceback function directly below the
chunk. -/
def setupHandler (init : List LuaValue) (dbg tb : LuaValue) : List LuaValue :=
  let s1 := LuaValue.chunk :: init
  let s2 := dbg :: s1
  let s3 := tb :: s2
  let s4 := luaRemoveNeg2 s3
  luaInsertNeg2 s4

/-- `exec_luau_source` (lines 27-78): compile the source, load the
bytecode, free the bytecode buffer, and inspect the load result.  On
load failure: report `Load error:`, pop the error, close the VM, return
1.  On success: install `debug.traceback` below the chunk, call
`lua_pcall(L, 0, LUA_MULTRET, errfunc)`; on failure report
`Runtime error:`, pop the error, close the VM, return 1; on success
remove the handler slot and return 0.  `init` is the stack contents on
entry (top-at-head). -/
def exec_luau_source (init : List LuaValue) (o : Oracle) : ExecResult :=
  if o.loadOk then
    let s5 := setupHandler init o.debugTable o.traceback
    let errfunc := s5.length - 1
    if o.pcallOk then
      { trace := [.compile, .load, .freeBytecode, .inspectLoadResult true,
                  .fetchTraceback, .pcall errfunc (-1), .removeErrfunc errfunc],
        stderr := [],
        stack := removeAbs (o.results ++ s5.tail) errfunc,
        closed := false,
        ret := 0 }
    else
      { trace := [.compile, .load, .freeBytecode, .inspectLoadResult true,
                  .fetchTraceback, .pcall errfunc (-1),
                  .writeStderr (strBytes "Runtime error: " ++ o.pcallErr),
                  .popError, .closeSession],
        stderr := [strBytes "Runtime error: " ++ o.pcallErr],
        stack := s5.tail,
        closed := true,
        ret := 1 }
  else
    { trace := [.compile, .load, .freeBytecode, .inspectLoadResult false,
                .writeStderr (strBytes "Load error: " ++ o.loadErr),
                .popError, .closeSession],
      stderr := [strBytes "Load error: " ++ o.loadErr],
      stack := init,
      closed := true,
      ret := 1 }

/-- Outcome of a host capability function called from script code:
either it returns a list of values to the script, or it raises a
catchable script-level error via `luaL_error` (a `longjmp` into the
surrounding protected call, never a host-level crash). -/
inductive CapResult where
  | ok (results : List LuaValue)
  | err (msg : Bytes)
  deriving DecidableEq, Repr

/-- The file system as `luau_file_load` sees it: `read name` is `none`
when `fopen(name, "rb")` fails, and otherwise the file's full byte
contents.  The seek-to-end/`ftell`/`fread` protocol of the source is
modelled as returning the full contents; allocation failure and short
reads are not modelled (the claims quantify over successful reads). -/
structure FS where
  read : Bytes → Option Bytes

/-- Result of `luau_file_load`: the script-visible outcome together
with the list of filenames for which an `fopen` call was issued. -/
structure FileLoadOut where
  result : CapResult
  fopenCalls : List Bytes
  deriving DecidableEq, Repr

/-- `luau_file_load` (lines 81-105): demand exactly one argument,
convert it with `lua_tostring` (which coerces numbers), `fopen` the
named file in binary mode, read its full contents and push them as one
Lua string (`lua_pushlstring` with an explicit length, so embedded zero
bytes are preserved); every failure is raised through `luaL_error`.
`args` lists the call arguments bottom-first, as `lua_gettop`/index 1
see them. -/
def luau_file_load (fs : FS) (args : List LuaValue) : FileLoadOut :=
  if args.length ≠ 1 then
    { result := .err (strBytes "luau_file_load: expected 1 argument (filename : string), got "
        ++ strBytes (toString args.length) ++ strBytes " arguments"),
      fopenCalls := [] }
  else
    match lua_tostringVal ((args.get? 0).getD .nil) with
    | none =>
      { result := .err (strBytes "luau_file_load: expected 1 argument (filename : string), argument not a string"),
        fopenCalls := [] }
    | some arg1 =>
      match fs.read arg1 with
      | none =>
        { result := .err (strBytes "luau_file_load: can not open file " ++ arg1),
          fopenCalls := [arg1] }
      | some bytes =>
        { result := .ok [.str bytes],
          fopenCalls := [arg1] }

/-- The locale categories of `<clocale>`; the source only ever uses
`LC_ALL`. -/
inductive LocaleCategory where
  | lc_all
  | lc_collate
  | lc_ctype
  | lc_monetary
  | lc_numeric
  | lc_time
  deriving DecidableEq, Repr

/-- Result of `luau_setlocale`: the script-visible outcome together
with the list of C `setlocale(category, name)` calls issued. -/
structure SetlocaleOut where
  result : CapResult
  setlocaleCalls : List (LocaleCategory × Bytes)
  deriving DecidableEq, Repr

/-- `luau_setlocale` (lines 108-120): demand exactly one argument,
convert it with `lua_tostring` (which coerces numbers), then call
`setlocale(LC_ALL, name)`; if the C library rejects the name (returns
`NULL`, modelled by `accepts .lc_all name = false`) raise a catchable
error naming the attempted locale, otherwise return zero values. -/
def luau_setlocale (accepts : LocaleCategory → Bytes → Bool) (args : List LuaValue) : SetlocaleOut :=
  if args.length ≠ 1 then
    { result := .err (strBytes "luau_setlocale: expected 1 argument (locale : string), got "
        ++ strBytes (toString args.length) ++ strBytes " arguments"),
      setlocaleCalls := [] }
  else
    match lua_tostringVal ((args.get? 0).getD .nil) with
    | none =>
      { result := .err (strBytes "luau_setlocale: expected 1 argument (locale : string), argument not a string"),
        setlocaleCalls := [] }
    | some arg1 =>
      if accepts .lc_all arg1 then
        { result := .ok [], setlocaleCalls := [(.lc_all, arg1)] }
      else
        { result := .err (strBytes "luau_setlocale: can not set locale " ++ arg1),
          setlocaleCalls := [(.lc_all, arg1)] }

/-- `load_file_to_string` (lines 14-25): open the file with
`std::ifstream`; on failure write `Failed to open file: <name>` to the
error channel and return the empty string, otherwise return the full
contents.  The result pairs the returned string with the stderr lines
written. -/
def load_file_to_string (fsRead : Bytes → Option Bytes) (filename : Bytes) : Bytes × List Bytes :=
  match fsRead filename with
  | none => ([], [strBytes "Failed to open file: " ++ filename])
  | some contents => (contents, [])

/-- Setup-phase events of `main`, in program order.  `callReg name n`
is a `lua_pushcfunction`/`lua_call` pair invoking a registration entry
point with `n` arguments; `setGlobal name` is a
`lua_pushcfunction`/`lua_setglobal` pair binding a host capability
function; `sandbox` is `luaL_sandbox`; `runScript` marks the hand-off
to the user script. -/
inductive SetupEvent where
  | newstate
  | openlibs
  | callReg (name : String) (nargs : Nat)
  | setGlobal (name : String)
  | sandbox
  | runScript
  deriving DecidableEq, Repr

/-- The external world `main` runs against: the file system used by
`load_file_to_string`, and the VM behaviour (`Oracle`) as a function of
the source text handed to `exec_luau_source`. -/
structure World where
  fsRead : Bytes → Option Bytes
  oracle : Bytes → Oracle

/-- What one `main` invocation leaves behind: the process exit status,
all stderr lines in order, whether a VM state was ever created, the
setup-phase event trace, and the `exec_luau_source` event trace (empty
when the pipeline was never reached). -/
structure MainResult where
  ret : Nat
  stderr : List Bytes
  vmCreated : Bool
  setup : List SetupEvent
  execTrace : List Event
  deriving Repr

/-- The setup sequence of `main` (lines 130-153): create the state,
open the standard libraries, invoke the two cjson registration entry
points with zero arguments, bind the two host capability functions
under their global names, lock the sandbox, then run the user script. -/
def setupTrace : List SetupEvent :=
  [.newstate, .openlibs,
   .callReg "luaopen_cjson" 0, .callReg "luaopen_cjson_safe" 0,
   .setGlobal "luau_file_load", .setGlobal "luau_setlocale",
   .sandbox, .runScript]

/-- `argv[1]`, the script path (only used when `argc >= 2`). -/
def scriptPath (argv : List Bytes) : Bytes := (argv.get? 1).getD []

/-- The `exec_luau_source` run performed by `main` on the script named
by `argv[1]`: the VM starts with an empty stack, and the source is
whatever `load_file_to_string` returned. -/
def mainExec (w : World) (argv : List Bytes) : ExecResult :=
  exec_luau_source [] (w.oracle (load_file_to_string w.fsRead (scriptPath argv)).1)

/-- `main` (lines 122-157): with `argc < 2` print the usage line and
exit 1 before any VM state exists; otherwise create and set up the VM,
read the script file, run the pipeline, and exit 1 exactly when the
pipeline reported failure. -/
def main (w : World) (argv : List Bytes) : MainResult :=
  if argv.length < 2 then
    { ret := 1,
      stderr := [strBytes "Usage: " ++ argv.headI ++ strBytes " script.luau"],
      vmCreated := false,
      setup := [],
      execTrace := [] }
  else
    let loaded := load_file_to_string w.fsRead (scriptPath argv)
    let e := mainExec w argv
    { ret := if e.ret = 0 then 0 else 1,
      stderr := loaded.2 ++ e.stderr,
      vmCreated := true,
      setup := setupTrace,
      execTrace := e.trace }

/-! ### Helper lemmas -/

/-- The handler-setup sequence turns `[chunk, ...init]` into
`[chunk, traceback, ...init]`: the traceback function ends up directly
beneath the chunk. -/
theorem setupHandler_eq (init : List LuaValue) (dbg tb : LuaValue) :
    setupHandler init dbg tb = LuaValue.chunk :: tb :: init := rfl

/-- Removing the value at absolute index `|zs| + 1` from a top-at-head
stack `xs ++ y :: zs` removes exactly `y`. -/
theorem removeAbs_middle (xs zs : List LuaValue) (y : LuaValue) :
    removeAbs (xs ++ y :: zs) (zs.length + 1) = xs ++ zs := by
  unfold removeAbs
  have h : (xs ++ y :: zs).length - (zs.length + 1) = xs.length := by
    simp
  rw [h]
  simp [List.take_append, List.drop_append]

/-- `exec_luau_source` on a load failure. -/
theorem exec_load_fail (init : List LuaValue) (o : Oracle) (h : o.loadOk = false) :
    exec_luau_source init o =
      { trace := [.compile, .load, .freeBytecode, .inspectLoadResult false,
                  .writeStderr (strBytes "Load error: " ++ o.loadErr),
                  .popError, .closeSession],
        stderr := [strBytes "Load error: " ++ o.loadErr],
        stack := init,
        closed := true,
        ret := 1 } := by
  simp [exec_luau_source, h]

/-- `exec_luau_source` on a successful load followed by a failing
protected call. -/
theorem exec_run_fail (init : List LuaValue) (o : Oracle)
    (h1 : o.loadOk = true) (h2 : o.pcallOk = false) :
    exec_luau_source init o =
      { trace := [.compile, .load, .freeBytecode, .inspectLoadResult true,
                  .fetchTraceback, .pcall (init.length + 1) (-1),
                  .writeStderr (strBytes "Runtime error: " ++ o.pcallErr),
                  .popError, .closeSession],
        stderr := [strBytes "Runtime error: " ++ o.pcallErr],
        stack := o.traceback :: init,
        closed := true,
        ret := 1 } := by
  simp [exec_luau_source, h1, h2, setupHandler_eq]

/-- `exec_luau_source` on a fully successful run. -/
theorem exec_success (init : List LuaValue) (o : Oracle)
    (h1 : o.loadOk = true) (h2 : o.pcallOk = true) :
    exec_luau_source init o =
      { trace := [.compile, .load, .freeBytecode, .inspectLoadResult true,
                  .fetchTraceback, .pcall (init.length + 1) (-1),
                  .removeErrfunc (init.length + 1)],
        stderr := [],
        stack := o.results ++ init,
        closed := false,
        ret := 0 } := by
  simp only [exec_luau_source, h1, h2, if_true, setupHandler_eq]
  simp only [List.length_cons, Nat.add_sub_cancel, List.tail_cons]
  rw [removeAbs_middle o.results init o.traceback]

/-! ### Sample inputs used by witnesses and counterexamples -/

/-- A VM behaviour where loading fails (e.g. a syntax error). -/
def oLoadFail : Oracle :=
  { loadOk := false, loadErr := strBytes "syntax error",
    debugTable := .table 0, traceback := .fn 0,
    pcallOk := true, pcallErr := [], results := [] }

/-- A VM behaviour where loading succeeds and the protected call
fails. -/
def oRunFail : Oracle :=
  { loadOk := true, loadErr := [],
    debugTable := .table 0, traceback := .fn 0,
    pcallOk := false, pcallErr := strBytes "boom", results := [] }

/-- A VM behaviour where everything succeeds and the chunk returns one
value.  This is in particular the behaviour of the real Luau VM on the
empty source: an empty script is a valid program. -/
def oOk : Oracle :=
  { loadOk := true, loadErr := [],
    debugTable := .table 0, traceback := .fn 0,
    pcallOk := true, pcallErr := [], results := [.number 7] }

/-- A VM behaviour where every source loads and runs to completion
returning nothing — the real Luau VM behaves exactly like this on the
empty source. -/
def oEmptyOk : Oracle :=
  { loadOk := true, loadErr := [],
    debugTable := .table 0, traceback := .fn 0,
    pcallOk := true, pcallErr := [], results := [] }

/-- A world in which no file can be opened, and the VM (faithfully to
real Luau) loads and runs the empty source successfully. -/
def worldMissingFile : World :=
  { fsRead := fun _ => none, oracle := fun _ => oEmptyOk }

/-- A world in which every file reads as empty and every script fails
at run time. -/
def worldRunFail : World :=
  { fsRead := fun _ => some [], oracle := fun _ => oRunFail }

/-! ### Claims -/

/-- Claim C1 (code bug, evaluated at the failing input): invoked on a
script path that cannot be opened, the program writes
`Failed to open file: missing.luau` to the error channel but then
compiles and executes the empty source as if it were a valid script (a
`lua_pcall` event occurs) and exits with status 0, not 1: `main` never
checks `load_file_to_string`'s empty-result failure signal.  The spec
requires exit status 1 and that the empty load be treated as "cannot
proceed". -/
theorem main_missing_file_executes_empty_source :
    (main worldMissingFile [strBytes "luau_test", strBytes "missing.luau"]).ret = 0 ∧
    (main worldMissingFile [strBytes "luau_test", strBytes "missing.luau"]).stderr
      = [strBytes "Failed to open file: missing.luau"] ∧
    Event.pcall 1 (-1)
      ∈ (main worldMissingFile [strBytes "luau_test", strBytes "missing.luau"]).execTrace := by
  decide

/-- Claim C2 counterexample: an invocation with two positional
arguments (three `argv` entries) is not rejected: no usage message is
written, a VM session is created, and (in a world where the rest
succeeds) the process exits 0.  The source only checks `argc < 2`. -/
theorem main_extra_args_no_usage_error :
    (main worldMissingFile
      [strBytes "luau_test", strBytes "a.luau", strBytes "extra"]).vmCreated = true ∧
    (main worldMissingFile
      [strBytes "luau_test", strBytes "a.luau", strBytes "extra"]).ret = 0 ∧
    (strBytes "Usage: " ++ strBytes "luau_test" ++ strBytes " script.luau")
      ∉ (main worldMissingFile
          [strBytes "luau_test", strBytes "a.luau", strBytes "extra"]).stderr := by
  decide

/-- Claim C2 (amended): an invocation with zero positional arguments
(`argc < 2`) writes the usage line to the error channel and exits with
status 1 before any VM session is constructed; an invocation with one
or more positional arguments is never rejected for arity — the VM
session is created, setup runs, and the first positional argument is
used as the script path (extras are ignored). -/
theorem main_arg_count_check (w : World) (argv : List Bytes) :
    (argv.length < 2 →
      (main w argv).ret = 1 ∧
      (main w argv).stderr = [strBytes "Usage: " ++ argv.headI ++ strBytes " script.luau"] ∧
      (main w argv).vmCreated = false ∧
      (main w argv).setup = []) ∧
    (2 ≤ argv.length →
      (main w argv).vmCreated = true ∧
      (main w argv).setup = setupTrace ∧
      (main w argv).execTrace = (mainExec w argv).trace) := by
  constructor
  · intro h
    simp [main, h]
  · intro h
    have h2 : ¬ argv.length < 2 := by omega
    simp [main, h2]

/-- Witness for `main_arg_count_check` at `argv = ["luau_test"]` and
`argv = ["luau_test", "s.luau", "extra"]`. -/
theorem main_arg_count_check_witness :
    (main worldMissingFile [strBytes "luau_test"]).ret = 1 ∧
    (main worldMissingFile
      [strBytes "luau_test", strBytes "s.luau", strBytes "extra"]).vmCreated = true :=
  ⟨((main_arg_count_check worldMissingFile [strBytes "luau_test"]).1 (by decide)).1,
   ((main_arg_count_check worldMissingFile
      [strBytes "luau_test", strBytes "s.luau", strBytes "extra"]).2 (by decide)).1⟩

/-- Claim C3: every VM-originated failure of `exec_luau_source` (load
failure or protected-call failure) writes exactly one diagnostic line
to the error channel — `Load error:` resp. `Runtime error:` with the
VM's error string appended verbatim — pops the error value, closes the
VM session, and returns 1 so that `main` exits with status 1; on a
load failure no `lua_pcall` ever happens, and whenever 1 is returned
the session has been closed. -/
theorem exec_vm_failure_reporting (init : List LuaValue) (o : Oracle) :
    (o.loadOk = false →
      (exec_luau_source init o).stderr = [strBytes "Load error: " ++ o.loadErr] ∧
      (exec_luau_source init o).stack = init ∧
      (exec_luau_source init o).closed = true ∧
      (exec_luau_source init o).ret = 1 ∧
      ∀ e n, Event.pcall e n ∉ (exec_luau_source init o).trace) ∧
    (o.loadOk = true → o.pcallOk = false →
      (exec_luau_source init o).stderr = [strBytes "Runtime error: " ++ o.pcallErr] ∧
      (exec_luau_source init o).stack = o.traceback :: init ∧
      (exec_luau_source init o).closed = true ∧
      (exec_luau_source init o).ret = 1) ∧
    ((exec_luau_source init o).ret = 1 → (exec_luau_source init o).closed = true) ∧
    (∀ w argv, 2 ≤ argv.length → (mainExec w argv).ret = 1 → (main w argv).ret = 1) := by
  refine ⟨?_, ?_, ?_, ?_⟩
  · intro h
    rw [exec_load_fail init o h]
    refine ⟨rfl, rfl, rfl, rfl, ?_⟩
    intro e n
    simp
  · intro h1 h2
    rw [exec_run_fail init o h1 h2]
    exact ⟨rfl, rfl, rfl, rfl⟩
  · intro h
    cases h1 : o.loadOk
    · rw [exec_load_fail init o h1]
    · cases h2 : o.pcallOk
      · rw [exec_run_fail init o h1 h2]
      · rw [exec_success init o h1 h2] at h
        simp at h
  · intro w argv h hr
    have h2 : ¬ argv.length < 2 := by omega
    simp [main, h2, hr]

/-- Witness for `exec_vm_failure_reporting`: the load-failure branch at
`oLoadFail`, the runtime-failure branch at `oRunFail`, and the exit
status propagation in `worldRunFail`. -/
theorem exec_vm_failure_reporting_witness :
    (exec_luau_source [] oLoadFail).stderr = [strBytes "Load error: " ++ oLoadFail.loadErr] ∧
    (exec_luau_source [] oRunFail).closed = true ∧
    (main worldRunFail [strBytes "luau_test", strBytes "s.luau"]).ret = 1 :=
  ⟨((exec_vm_failure_reporting [] oLoadFail).1 rfl).1,
   ((exec_vm_failure_reporting [] oRunFail).2.1 rfl rfl).2.2.1,
   (exec_vm_failure_reporting [] oRunFail).2.2.2 worldRunFail
     [strBytes "luau_test", strBytes "s.luau"] (by decide) (by decide)⟩

/-- A file system in which a file literally named `42` exists with
contents `hi`. -/
def fsNum : FS :=
  { read := fun n => if n = strBytes "42" then some (strBytes "hi") else none }

/-- Claim C4 counterexample: calling `luau_file_load` with the single
NUMBER argument `42` does not raise a script-level error — the
`lua_tostring` check coerces the number to the string `42`, `fopen` is
attempted (a side effect), and when a file named `42` exists its
contents are returned as a success.  The claim that every non-string
single argument raises an error and performs no side effect is
therefore false on the code. -/
theorem luau_file_load_number_arg_accepted :
    (luau_file_load fsNum [.number 42]).result = .ok [.str (strBytes "hi")] ∧
    (luau_file_load fsNum [.number 42]).fopenCalls = [strBytes "42"] := by
  decide

/-- Claim C4 (amended): for either host capability function, an
argument count other than exactly one raises a catchable script-level
error (via `luaL_error`, recoverable by the surrounding protected
call) and performs no side effect (no `fopen`, no `setlocale`); a
single argument on which the VM's string conversion fails — i.e. one
that is neither a string nor a number, since `lua_tostring` coerces
numbers to their decimal string form — likewise raises a catchable
error with no side effect. -/
theorem cap_arg_validation (fs : FS) (accepts : LocaleCategory → Bytes → Bool)
    (args : List LuaValue) :
    (args.length ≠ 1 →
      (luau_file_load fs args).result =
        .err (strBytes "luau_file_load: expected 1 argument (filename : string), got "
          ++ strBytes (toString args.length) ++ strBytes " arguments") ∧
      (luau_file_load fs args).fopenCalls = [] ∧
      (luau_setlocale accepts args).result =
        .err (strBytes "luau_setlocale: expected 1 argument (locale : string), got "
          ++ strBytes (toString args.length) ++ strBytes " arguments") ∧
      (luau_setlocale accepts args).setlocaleCalls = []) ∧
    (∀ v, args = [v] → lua_tostringVal v = none →
      (luau_file_load fs args).result =
        .err (strBytes "luau_file_load: expected 1 argument (filename : string), argument not a string") ∧
      (luau_file_load fs args).fopenCalls = [] ∧
      (luau_setlocale accepts args).result =
        .err (strBytes "luau_setlocale: expected 1 argument (locale : string), argument not a string") ∧
      (luau_setlocale accepts args).setlocaleCalls = []) := by
  constructor
  · intro h
    simp [luau_file_load, luau_setlocale, h]
  · intro v hv hts
    subst hv
    simp [luau_file_load, luau_setlocale, hts]

/-- Witness for `cap_arg_validation`: zero arguments, and a single
boolean argument (on which `lua_tostring` fails). -/
theorem cap_arg_validation_witness :
    (luau_file_load fsNum []).fopenCalls = [] ∧
    (luau_setlocale (fun _ _ => true) [.boolean true]).setlocaleCalls = [] :=
  ⟨((cap_arg_validation fsNum (fun _ _ => true) []).1 (by decide)).2.1,
   ((cap_arg_validation fsNum (fun _ _ => true) [.boolean true]).2
     (.boolean true) rfl rfl).2.2.2⟩

/-- Claim C5: after a successful load, the handler setup fetches
`debug.traceback` with the chunk already on the stack and leaves it
directly beneath the chunk (`setupHandler` maps `[chunk, ...init]` to
`[chunk, traceback, ...init]`); the absolute index `init.length + 1`
computed by `exec_luau_source` refers to the traceback slot and is
exactly the error-handler argument passed to `lua_pcall` (the fetch
event precedes the call event in the trace); and the
`lua_remove(errfunc)` event occurs in the trace if and only if the
protected call succeeded. -/
theorem exec_error_handler_discipline (init : List LuaValue) (o : Oracle)
    (h : o.loadOk = true) :
    setupHandler init o.debugTable o.traceback = LuaValue.chunk :: o.traceback :: init ∧
    stackGetAbs (setupHandler init o.debugTable o.traceback) (init.length + 1)
      = some o.traceback ∧
    (exec_luau_source init o).trace =
      [Event.compile, Event.load, Event.freeBytecode, Event.inspectLoadResult true,
       Event.fetchTraceback, Event.pcall (init.length + 1) (-1)] ++
      (if o.pcallOk then [Event.removeErrfunc (init.length + 1)]
       else [Event.writeStderr (strBytes "Runtime error: " ++ o.pcallErr),
             Event.popError, Event.closeSession]) ∧
    (Event.removeErrfunc (init.length + 1) ∈ (exec_luau_source init o).trace
      ↔ o.pcallOk = true) := by
  refine ⟨setupHandler_eq init o.debugTable o.traceback, ?_, ?_, ?_⟩
  · rw [setupHandler_eq]
    simp [stackGetAbs]
  · cases h2 : o.pcallOk
    · rw [exec_run_fail init o h h2]
      simp
    · rw [exec_success init o h h2]
      simp
  · cases h2 : o.pcallOk
    · rw [exec_run_fail init o h h2]
      simp
    · rw [exec_success init o h h2]
      simp

/-- Witness for `exec_error_handler_discipline` on the empty initial
stack with the all-success oracle. -/
theorem exec_error_handler_discipline_witness :
    stackGetAbs (setupHandler [] oOk.debugTable oOk.traceback) 1 = some oOk.traceback ∧
    (Event.removeErrfunc 1 ∈ (exec_luau_source [] oOk).trace ↔ oOk.pcallOk = true) :=
  ⟨(exec_error_handler_discipline [] oOk rfl).2.1,
   (exec_error_handler_discipline [] oOk rfl).2.2.2⟩

/-- Claim C6: in every run that reaches setup (at least one positional
argument), `luaopen_cjson` and `luaopen_cjson_safe` are each invoked
exactly once, with zero arguments; both host capability functions are
bound under their fixed global names strictly before the sandbox lock;
and the lock is the final setup action before the user script runs. -/
theorem main_registration_before_sandbox (w : World) (argv : List Bytes)
    (h : 2 ≤ argv.length) :
    (main w argv).setup = setupTrace ∧
    (main w argv).setup.count (SetupEvent.callReg "luaopen_cjson" 0) = 1 ∧
    (main w argv).setup.count (SetupEvent.callReg "luaopen_cjson_safe" 0) = 1 ∧
    (∃ pre, (main w argv).setup = pre ++ [SetupEvent.sandbox, SetupEvent.runScript] ∧
      SetupEvent.callReg "luaopen_cjson" 0 ∈ pre ∧
      SetupEvent.callReg "luaopen_cjson_safe" 0 ∈ pre ∧
      SetupEvent.setGlobal "luau_file_load" ∈ pre ∧
      SetupEvent.setGlobal "luau_setlocale" ∈ pre) := by
  have h2 : ¬ argv.length < 2 := by omega
  have hs : (main w argv).setup = setupTrace := by
    simp [main, h2]
  refine ⟨hs, ?_, ?_, ?_⟩
  · rw [hs]; decide
  · rw [hs]; decide
  · refine ⟨[.newstate, .openlibs,
      .callReg "luaopen_cjson" 0, .callReg "luaopen_cjson_safe" 0,
      .setGlobal "luau_file_load", .setGlobal "luau_setlocale"], ?_, ?_, ?_, ?_, ?_⟩
    · rw [hs]; decide
    · decide
    · decide
    · decide
    · decide

/-- Witness for `main_registration_before_sandbox` at a two-argument
invocation. -/
theorem main_registration_before_sandbox_witness :
    (main worldMissingFile [strBytes "luau_test", strBytes "s.luau"]).setup = setupTrace :=
  (main_registration_before_sandbox worldMissingFile
    [strBytes "luau_test", strBytes "s.luau"] (by decide)).1

/-- Claim C7: calling `luau_file_load` with the name of an existing
readable file of contents `bs` (N = `bs.length` bytes) returns exactly
one value, a string whose bytes equal the file's bytes — embedded zero
bytes included, no decoding, no caching — and whose Lua string length
is exactly N; exactly one `fopen` of that file is performed. -/
theorem luau_file_load_roundtrip (fs : FS) (name bs : Bytes)
    (h : fs.read name = some bs) :
    luau_file_load fs [.str name] = { result := .ok [.str bs], fopenCalls := [name] } ∧
    luaStrLength (.str bs) = some bs.length := by
  constructor
  · simp [luau_file_load, lua_tostringVal, h]
  · rfl

/-- Witness for `luau_file_load_roundtrip` on a 3-byte file containing
an embedded zero byte. -/
theorem luau_file_load_roundtrip_witness :
    luau_file_load (FS.mk fun n => if n = strBytes "data.bin" then some [104, 0, 105] else none)
        [.str (strBytes "data.bin")]
      = { result := .ok [.str [104, 0, 105]], fopenCalls := [strBytes "data.bin"] } ∧
    luaStrLength (.str [104, 0, 105]) = some 3 :=
  luau_file_load_roundtrip
    (FS.mk fun n => if n = strBytes "data.bin" then some [104, 0, 105] else none)
    (strBytes "data.bin") [104, 0, 105] (by decide)

/-- Claim C8: `luau_setlocale` applies its string argument with the
`LC_ALL` category (the full process-wide locale, all facets); when the
C library rejects the name it raises a catchable script-level error
whose message ends with — hence contains — the literal attempted name;
when the name is accepted it returns zero values. -/
theorem luau_setlocale_contract (accepts : LocaleCategory → Bytes → Bool) (name : Bytes) :
    (accepts .lc_all name = false →
      luau_setlocale accepts [.str name] =
        { result := .err (strBytes "luau_setlocale: can not set locale " ++ name),
          setlocaleCalls := [(.lc_all, name)] } ∧
      List.IsSuffix name (strBytes "luau_setlocale: can not set locale " ++ name)) ∧
    (accepts .lc_all name = true →
      luau_setlocale accepts [.str name] =
        { result := .ok [], setlocaleCalls := [(.lc_all, name)] }) := by
  constructor
  · intro h
    constructor
    · simp [luau_setlocale, lua_tostringVal, h]
    · exact ⟨strBytes "luau_setlocale: can not set locale ", rfl⟩
  · intro h
    simp [luau_setlocale, lua_tostringVal, h]

/-- Witness for `luau_setlocale_contract`: a rejecting facility at the
name `xx_XX`, and an accepting facility at the name `C`. -/
theorem luau_setlocale_contract_witness :
    luau_setlocale (fun _ _ => false) [.str (strBytes "xx_XX")] =
      { result := .err (strBytes "luau_setlocale: can not set locale " ++ strBytes "xx_XX"),
        setlocaleCalls := [(.lc_all, strBytes "xx_XX")] } ∧
    luau_setlocale (fun _ _ => true) [.str (strBytes "C")] =
      { result := .ok [], setlocaleCalls := [(.lc_all, strBytes "C")] } :=
  ⟨((luau_setlocale_contract (fun _ _ => false) (strBytes "xx_XX")).1 rfl).1,
   (luau_setlocale_contract (fun _ _ => true) (strBytes "C")).2 rfl⟩

/-- Claim C9: on every execution of `exec_luau_source`, whatever the
load and call outcomes, the trace starts with compile, load, free of
the bytecode buffer, and only then the inspection of the load result:
the Compiled Unit is released immediately after being handed to the
loader, before the load result is inspected, on both outcomes, and is
never freed again later. -/
theorem exec_bytecode_freed_immediately (init : List LuaValue) (o : Oracle) :
    ∃ rest, (exec_luau_source init o).trace =
        [Event.compile, Event.load, Event.freeBytecode, Event.inspectLoadResult o.loadOk]
          ++ rest ∧
      Event.freeBytecode ∉ rest := by
  cases h1 : o.loadOk
  · rw [exec_load_fail init o h1]
    exact ⟨_, rfl, by simp⟩
  · cases h2 : o.pcallOk
    · rw [exec_run_fail init o h1 h2]
      exact ⟨_, rfl, by simp⟩
    · rw [exec_success init o h1 h2]
      exact ⟨_, rfl, by simp⟩

/-- Claim C10: on the success path of `exec_luau_source` the protected
call is issued with `LUA_MULTRET` (all returned values requested),
afterwards only the error handler's slot is removed — every value the
chunk returned stays on the stack above the original contents — the VM
session is not closed, no diagnostic is written, and 0 is returned. -/
theorem exec_success_frame_effect (init : List LuaValue) (o : Oracle)
    (h1 : o.loadOk = true) (h2 : o.pcallOk = true) :
    (exec_luau_source init o).stack = o.results ++ init ∧
    (exec_luau_source init o).closed = false ∧
    (exec_luau_source init o).ret = 0 ∧
    (exec_luau_source init o).stderr = [] ∧
    (exec_luau_source init o).trace =
      [Event.compile, Event.load, Event.freeBytecode, Event.inspectLoadResult true,
       Event.fetchTraceback, Event.pcall (init.length + 1) (-1),
       Event.removeErrfunc (init.length + 1)] := by
  rw [exec_success init o h1 h2]
  exact ⟨rfl, rfl, rfl, rfl, rfl⟩

/-- Witness for `exec_success_frame_effect` on a nonempty initial
stack with a chunk returning one value. -/
theorem exec_success_frame_effect_witness :
    (exec_luau_source [LuaValue.nil] oOk).stack = oOk.results ++ [LuaValue.nil] ∧
    (exec_luau_source [LuaValue.nil] oOk).closed = false :=
  ⟨(exec_success_frame_effect [LuaValue.nil] oOk rfl rfl).1,
   (exec_success_frame_effect [LuaValue.nil] oOk rfl rfl).2.1⟩

end LuauCjson
